import Mathlib

/-!
Verification of the SageMaker training-recipe resolution pipeline
(`src/sagemaker/modules/train/sm_recipes/utils.py`).

The recipe configuration tree (an OmegaConf `DictConfig`) is embedded as the
inductive `Value`.  Python exceptions are embedded in the result type `Res`:
`valueError` models `ValueError` (the spec's UsageError), `runtimeError`
models `RuntimeError` (the spec's fatal ResolutionError), and `pyError`
models any other Python-level failure (`AttributeError`, `IndexError`,
`KeyError`, ...) that the source does not raise intentionally.

External collaborators (the filesystem, repository cloning, the image-lookup
service, and the OmegaConf expression resolver) are parameters collected in
`Env`; all the decision logic of the source file is translated directly.
-/

set_option autoImplicit false

namespace SmRecipes

/-- A YAML/OmegaConf configuration value: null, string, integer, boolean,
mapping (an ordered association list, as `DictConfig` preserves insertion
order) or sequence.  Floats are not needed by any claim and are omitted. -/
inductive Value where
  | vNull : Value
  | vStr : String → Value
  | vInt : Int → Value
  | vBool : Bool → Value
  | vMap : List (String × Value) → Value
  | vSeq : List Value → Value

/-- Python `v is None` on a configuration value. -/
def Value.isNull : Value → Bool
  | .vNull => true
  | _ => false

/-- First-match association-list lookup, the order `DictConfig` uses. -/
def alookup : List (String × Value) → String → Option Value
  | [], _ => none
  | (k, v) :: rest, key => if k = key then some v else alookup rest key

/-- Python truthiness of a configuration value (`bool(v)`). -/
def truthy : Value → Bool
  | .vNull => false
  | .vStr s => !s.data.isEmpty
  | .vInt n => !(decide (n = 0))
  | .vBool b => b
  | .vMap es => !es.isEmpty
  | .vSeq xs => !xs.isEmpty

/-- Result of running a piece of the Python source: a value, a `ValueError`
(the spec's UsageError), a `RuntimeError` (the spec's fatal error), or any
other Python exception (`pyError`). -/
inductive Res (α : Type) where
  | ok : α → Res α
  | valueError : String → Res α
  | runtimeError : String → Res α
  | pyError : String → Res α
deriving DecidableEq, Repr

def Res.bind {α β : Type} : Res α → (α → Res β) → Res β
  | .ok a, f => f a
  | .valueError m, _ => .valueError m
  | .runtimeError m, _ => .runtimeError m
  | .pyError m, _ => .pyError m

instance : Monad Res where
  pure := Res.ok
  bind := Res.bind

def Res.isOk {α : Type} : Res α → Bool
  | .ok _ => true
  | _ => false

/-- Python `cfg.get(key, default)`: the stored value when the key is present (even
when it is null), otherwise the default; calling `.get` on a non-mapping
value is a Python `AttributeError`. -/
def val_get (v : Value) (key : String) (default : Value) : Res Value :=
  match v with
  | .vMap es => .ok ((alookup es key).getD default)
  | _ => .pyError "get on non-mapping value"

/-- Python `key in cfg`: key membership; a membership test on a non-mapping
configuration node is a Python-level error. -/
def val_hasKey (v : Value) (key : String) : Res Bool :=
  match v with
  | .vMap es => .ok (alookup es key).isSome
  | _ => .pyError "membership test on non-mapping value"

/-- Python `cfg[key]`: indexing, `KeyError` when absent. -/
def val_idx (v : Value) (key : String) : Res Value :=
  match v with
  | .vMap es =>
    match alookup es key with
    | some x => .ok x
    | none => .pyError "KeyError"
  | _ => .pyError "indexing non-mapping value"

/-- Lookup of a nested key path (used only to state specification-side
properties about merged recipes). -/
def value_at_path : Value → List String → Option Value
  | v, [] => some v
  | .vMap es, k :: rest =>
    match alookup es k with
    | some v => value_at_path v rest
    | none => none
  | _, _ :: _ => none

/-- Is the value a mapping node? -/
def Value.isMap : Value → Bool
  | .vMap _ => true
  | _ => false

/-- Test whether `needle` occurs contiguously in `hay` (character lists). -/
def substrList (needle : List Char) (hay : List Char) : Bool :=
  match hay with
  | [] => needle.isEmpty
  | _ :: rest => needle.isPrefixOf hay || substrList needle rest

/-- Python `needle in hay` on strings. -/
def str_contains (hay needle : String) : Bool :=
  substrList needle.data hay.data

/-- Python `s.startswith(p)` on strings. -/
def str_startswith (s p : String) : Bool :=
  p.data.isPrefixOf s.data

/-- Python `s.lower()` (ASCII case folding, which suffices for the vendor
marker token the source compares against). -/
def pyLower (s : String) : String :=
  String.mk (s.data.map Char.toLower)

/-- Python `s.split(sep)` for a single-character separator. -/
def splitOnChar (sep : Char) : List Char → List (List Char)
  | [] => [[]]
  | c :: rest =>
    let r := splitOnChar sep rest
    if c = sep then [] :: r
    else
      match r with
      | [] => [[c]]
      | h :: t => (c :: h) :: t

/-- The two fields of `sagemaker.modules.configs.Compute` that the pipeline
reads and writes (`instance_type`, `instance_count`); the remaining fields
are never touched by this file's source. -/
structure Compute where
  instance_type : Option String := none
  instance_count : Option Int := none
deriving DecidableEq, Repr

/-- Python truthiness of `compute.instance_count` (`None` and `0` are falsy). -/
def truthyCount : Option Int → Bool
  | none => false
  | some n => !(decide (n = 0))

/-- Python truthiness of the optional `role` string argument. -/
def truthyRole : Option String → Bool
  | none => false
  | some s => !s.data.isEmpty

/-- The fields of `sagemaker.modules.configs.SourceCode` set by this file. -/
structure SourceCode where
  source_dir : Option String := none
  entry_script : Option String := none
  requirements : Option String := none
deriving DecidableEq, Repr

/-- The distributed strategy attached by the builders: the gpu branch uses
`Torchrun(smp=SMP(random_seed="123456"))`, the trainium branch a plain
`Torchrun()`. -/
inductive DistributedConfig where
  | torchrun_smp (random_seed : String)
  | torchrun
deriving DecidableEq, Repr

/-- The partial argument mapping produced by `_configure_gpu_args` /
`_configure_trainium_args`. -/
structure BuilderArgs where
  source_code : SourceCode
  training_image : String
  distributed : DistributedConfig
deriving DecidableEq, Repr

/-- The final argument bundle returned by `_get_args_from_recipe` /
`_get_args_from_nova_recipe` (hyperparameters keep python dict insertion
order). -/
structure Args where
  source_code : Option SourceCode := none
  training_image : Option String := none
  distributed : Option DistributedConfig := none
  hyperparameters : List (String × Value) := []
  compute : Compute

/-- External collaborators, fixed for one resolution call: the OmegaConf
expression evaluator (`none` models an `OmegaConfBaseException`), the
`os.path.isfile` oracle, the container images the registry/image-lookup
produce, and the name of the fresh scratch directory
(`tempfile.TemporaryDirectory`). -/
structure Env where
  resolve : Value → Option Value
  isfile : String → Bool
  gpuImage : String
  neuronImage : String
  trainDir : String

/-- Modelled from the spec: `SM_RECIPE_YAML`, the fixed filename for the
persisted resolved recipe, lives in `sagemaker.modules.constants`, which is
not under `src/`; the spec only says the filename is fixed, and no claim
depends on its exact value. -/
def SM_RECIPE_YAML : String := "recipe.yaml"

/-- Lines 36-46 (`_try_resolve_recipe`): optionally nest the recipe under
`key`, run `OmegaConf.resolve` (in place; an `OmegaConfBaseException` yields
`None`), and return the resolved recipe (`recipe[key]` after in-place
resolution is the `key` entry of the resolved wrapper). -/
def _try_resolve_recipe (resolve : Value → Option Value) (recipe : Value)
    (key : Option String) : Option Value :=
  match key with
  | none => resolve recipe
  | some k =>
    match resolve (.vMap [(k, recipe)]) with
    | none => none
    | some wrapped =>
      match wrapped with
      | .vMap es => alookup es k
      | _ => none

/-- Lines 310-316 and 411-417 (identical blocks in `_get_args_from_nova_recipe`
and `_get_args_from_recipe`): try to resolve the recipe as-is, then nested
under `recipes`, then nested under `training`; if all three fail raise
`RuntimeError("Could not resolve provided recipe.")`. -/
def resolve_final_recipe (resolve : Value → Option Value) (recipe : Value) :
    Res Value :=
  match _try_resolve_recipe resolve recipe none with
  | some final => .ok final
  | none =>
    match _try_resolve_recipe resolve recipe (some "recipes") with
    | some final => .ok final
    | none =>
      match _try_resolve_recipe resolve recipe (some "training") with
      | some final => .ok final
      | none => .runtimeError "Could not resolve provided recipe."

/-- Lines 49-56 (`_determine_device_type`): take the segment after the first
`.` of the instance type (`instance_type.split(".")[1]`, an `IndexError` —
modelled as `none` — when the string has no dot), and classify it by prefix:
`p`/`g` → gpu, `trn` → trainium, anything else → cpu. -/
def _determine_device_type (instance_type : String) : Option String :=
  match (splitOnChar '.' instance_type.data)[1]? with
  | none => none
  | some instance_family =>
    if List.isPrefixOf ['p'] instance_family || List.isPrefixOf ['g'] instance_family then
      some "gpu"
    else if List.isPrefixOf ['t', 'r', 'n'] instance_family then
      some "trainium"
    else
      some "cpu"

/-- Model of `OmegaConf.merge(base, override)` (an external library call, modelled from
its documented semantics): a deep merge in which, key by key, two mapping
values are merged recursively and any other override value replaces the base
value; keys only in the base are preserved, keys only in the override are
appended.  The `fuel` argument only drives the recursion; `omegaconf_merge`
supplies more fuel than the override tree is deep, so the fuel-exhausted
branch is never taken. -/
def mergeValF : Nat → Value → Value → Value
  | 0, _, ov => ov
  | Nat.succ fuel, base, ov =>
    match base, ov with
    | .vMap a, .vMap b =>
      .vMap
        (a.map (fun p =>
            match alookup b p.1 with
            | some vb => (p.1, mergeValF fuel p.2 vb)
            | none => p)
          ++ b.filter (fun q => (alookup a q.1).isNone))
    | _, x => x

mutual

/-- Size of a configuration value (drives the merge fuel). -/
def valueSize : Value → Nat
  | .vNull => 1
  | .vStr _ => 1
  | .vInt _ => 1
  | .vBool _ => 1
  | .vMap es => entriesSize es + 1
  | .vSeq xs => seqSize xs + 1

/-- Size of a mapping's entry list. -/
def entriesSize : List (String × Value) → Nat
  | [] => 0
  | (_, v) :: rest => valueSize v + entriesSize rest + 1

/-- Size of a sequence's element list. -/
def seqSize : List Value → Nat
  | [] => 0
  | v :: rest => valueSize v + seqSize rest + 1

end

/-- Model of `OmegaConf.merge(base, override)` with sufficient fuel. -/
def omegaconf_merge (base ov : Value) : Value :=
  mergeValF (valueSize ov) base ov

/-- Lines 109-112 of `_load_base_recipe`: after the recipe file is fetched
and parsed (I/O, abstracted into the `loaded_recipe` parameter), the caller
overrides are merged on top. -/
def _load_base_recipe (loaded_recipe : Value) (recipe_overrides : Value) : Value :=
  omegaconf_merge loaded_recipe recipe_overrides

/-- Lines 237-268 (`_is_nova_recipe`): a recipe is a Nova recipe when
`run.model_type` (lower-cased) is truthy, contains `"amazon.nova"`, and
`model_name_or_path` is a key of `run`, or when
`training_config.get("distillation_data")` is not `None`.
`run_config.get("model_type", "").lower()` is an `AttributeError` when the
stored `model_type` is not a string. -/
def _is_nova_recipe (recipe : Value) : Res Bool := do
  let run_config ← val_get recipe "run" (.vMap [])
  let mtv ← val_get run_config "model_type" (.vStr "")
  match mtv with
  | .vStr mt0 => do
    let model_type := pyLower mt0
    let has_key ← val_hasKey run_config "model_name_or_path"
    let has_nova_model :=
      !model_type.data.isEmpty && str_contains model_type "amazon.nova" && has_key
    let training_config ← val_get recipe "training_config" (.vMap [])
    let dd ← val_get training_config "distillation_data" .vNull
    pure (has_nova_model || !dd.isNull)
  | _ => Res.pyError "model_type is not a string"

/-- Lines 134-149 (`_get_trainining_recipe_gpu_model_name_and_script`, name
as in the source): the first supported family whose name prefixes
`model_type` gives the source subdirectory and entry script; no match is
`ValueError("Model type ... not supported")`. -/
def model_type_to_script : List (String × String × String) :=
  [("llama", "llama", "llama_pretrain.py"),
   ("mistral", "mistral", "mistral_pretrain.py"),
   ("mixtral", "mixtral", "mixtral_pretrain.py"),
   ("deepseek", "deepseek", "deepseek_pretrain.py")]

/-- See `model_type_to_script`. -/
def _get_trainining_recipe_gpu_model_name_and_script (model_type : String) :
    Res (String × String) :=
  match model_type_to_script.find? (fun e => str_startswith model_type e.1) with
  | some e => .ok (e.2.1, e.2.2)
  | none => .valueError ("Model type " ++ model_type ++ " not supported")

/-- Lines 152-199 (`_configure_gpu_args`): clone the adapter repository
(I/O, no modelled effect), require `model` and `model.model_type`, map the
model type to a source subdirectory and entry script, take the training image
from the registry/image lookup (`Env.gpuImage`), and attach
`Torchrun(smp=SMP(random_seed="123456"))`.  `model_type.startswith` on a
non-string stored value is a Python-level error. -/
def _configure_gpu_args (env : Env) (recipe : Value) : Res BuilderArgs := do
  let hasModel ← val_hasKey recipe "model"
  if !hasModel then
    Res.valueError "Supplied recipe does not contain required field model."
  else do
    let modelv ← val_idx recipe "model"
    let hasModelType ← val_hasKey modelv "model_type"
    if !hasModelType then
      Res.valueError "Supplied recipe does not contain required field model_type."
    else do
      let mtv ← val_idx modelv "model_type"
      match mtv with
      | .vStr model_type => do
        let ns ← _get_trainining_recipe_gpu_model_name_and_script model_type
        pure { source_code :=
                 { source_dir := some (env.trainDir ++ "/examples/" ++ ns.1),
                   entry_script := some ns.2, requirements := none },
               training_image := env.gpuImage,
               distributed := .torchrun_smp "123456" }
      | _ => Res.pyError "model_type is not a string"

/-- Lines 202-234 (`_configure_trainium_args`): clone the neuron distributed
repository (I/O, no modelled effect), fix the entry script, take the neuron
training image, attach a plain `Torchrun()`.  It never reads the recipe. -/
def _configure_trainium_args (env : Env) : Res BuilderArgs :=
  .ok { source_code :=
          { source_dir := some (env.trainDir ++ "/examples"),
            entry_script := some "training_orchestrator.py", requirements := none },
        training_image := env.neuronImage,
        distributed := .torchrun }

/-- Lines 276-278 of `_get_args_from_nova_recipe`: when
`compute.instance_count` is falsy, read `run.replicas`; both falsy is a
`ValueError`, otherwise the replica count is assigned to
`compute.instance_count` in place (a non-integer replica count would leave
the typed `Compute` model and is flagged as a Python-level error). -/
def nova_count_step (recipe : Value) (compute : Compute) : Res Compute :=
  if truthyCount compute.instance_count then .ok compute
  else do
    let runv ← val_get recipe "run" (.vMap [])
    let repl ← val_get runv "replicas" .vNull
    if !(truthy repl) then
      Res.valueError "Must set ``instance_type`` in compute or ``replicas`` in recipe."
    else
      match repl with
      | .vInt m => pure { compute with instance_count := some m }
      | _ => Res.pyError "replicas is not an integer"

/-- Lines 283-289 of `_get_args_from_nova_recipe`: a truthy
`run.model_name_or_path` is stored under `base_model_location` when it is an
`s3://` path and under `base_model` otherwise. -/
def nova_model_hp (recipe : Value) : Res (List (String × Value)) := do
  let run_config ← val_get recipe "run" (.vMap [])
  let model_name_or_path ← val_get run_config "model_name_or_path" .vNull
  if truthy model_name_or_path then
    match model_name_or_path with
    | .vStr s =>
      if str_startswith s "s3://" then pure [("base_model_location", Value.vStr s)]
      else pure [("base_model", Value.vStr s)]
    | _ => Res.pyError "model_name_or_path is not a string"
  else pure []

/-- Lines 291-305 of `_get_args_from_nova_recipe`: when
`training_config.distillation_data` is truthy, require a truthy `role`
(`ValueError` otherwise), then require `training_config.kms_key` to not be
`None` (`ValueError` otherwise), and record `distillation_data`, `role_arn`
and `kms_key` in the hyperparameters. -/
def nova_distill_hp (recipe : Value) (role : Option String) :
    Res (List (String × Value)) := do
  let training_config ← val_get recipe "training_config" (.vMap [])
  let distillation_data ← val_get training_config "distillation_data" .vNull
  if truthy distillation_data then
    match role with
    | some ro =>
      if ro.data.isEmpty then
        Res.valueError "Must provide \x27role\x27 parameter when using Nova distillation"
      else do
        let kms_key ← val_get training_config "kms_key" .vNull
        if kms_key.isNull then
          Res.valueError "Nova distillation job recipe requires \x22kms_key\x22 field in \x22training_config\x22"
        else
          pure [("distillation_data", distillation_data), ("role_arn", Value.vStr ro),
                ("kms_key", kms_key)]
    | none => Res.valueError "Must provide \x27role\x27 parameter when using Nova distillation"
  else pure []

/-- Lines 271-331 (`_get_args_from_nova_recipe`): reconcile the instance
count (mutating `compute` in place), build the hyperparameters from
`model_name_or_path` and the distillation fields, resolve the final recipe,
and return the bundle with `source_code`, `training_image` and `distributed`
unset.  The second component is the state of the caller's `compute` object
when the call returns or raises: the count assignment of line 278 persists
even when a later validation raises. -/
def _get_args_from_nova_recipe (env : Env) (recipe : Value) (compute : Compute)
    (role : Option String) : Res Args × Compute :=
  match nova_count_step recipe compute with
  | .ok compute' =>
    let res : Res Args := do
      let hp1 ← nova_model_hp recipe
      let hp2 ← nova_distill_hp recipe role
      let _final ← resolve_final_recipe env.resolve recipe
      pure { source_code := none, training_image := none, distributed := none,
             hyperparameters := hp1 ++ hp2, compute := compute' }
    (res, compute')
  | .valueError m => (.valueError m, compute)
  | .runtimeError m => (.runtimeError m, compute)
  | .pyError m => (.pyError m, compute)

/-- The warning text of lines 384-387 (the Python message also interpolates
the repr of the compute object). -/
def num_nodes_warning : String :=
  "Using Compute to set instance_count. Ignoring trainer -> num_nodes in recipe."

/-- Lines 383-387: when `compute.instance_count` is truthy and the recipe's
`trainer` section has `num_nodes`, a warning is logged (the truthiness test
short-circuits, so `recipe["trainer"]` is only read when the count is
truthy). -/
def instance_count_warning (recipe : Value) (compute : Compute) :
    Res (List String) :=
  if truthyCount compute.instance_count then do
    let trainer ← val_idx recipe "trainer"
    let hasNumNodes ← val_hasKey trainer "num_nodes"
    pure (if hasNumNodes then [num_nodes_warning] else [])
  else pure []

/-- Lines 388-393: when `compute.instance_count is None`, it is filled in
place from `trainer.num_nodes`; a recipe without `num_nodes` is then a
`ValueError`.  A non-`None` count (including `0`) is left untouched. -/
def instance_count_fill (recipe : Value) (compute : Compute) : Res Compute :=
  match compute.instance_count with
  | some _ => .ok compute
  | none => do
    let trainer ← val_idx recipe "trainer"
    let hasNumNodes ← val_hasKey trainer "num_nodes"
    if !hasNumNodes then
      Res.valueError "Must provide Compute with instance_count or set trainer -> num_nodes in recipe."
    else do
      let nn ← val_idx trainer "num_nodes"
      match nn with
      | .vInt m => pure { compute with instance_count := some m }
      | _ => Res.pyError "num_nodes is not an integer"

/-- Lines 395-396: a truthy `requirements` path that is not a file is a
`ValueError`. -/
def requirements_check (env : Env) (requirements : Option String) : Res Unit :=
  match requirements with
  | some r =>
    if !r.data.isEmpty && !(env.isfile r) then
      .valueError ("Recipe requirements file " ++ r ++ " not found.")
    else .ok ()
  | none => .ok ()

/-- Python `os.path.basename`. -/
def basename (p : String) : String :=
  String.mk ((splitOnChar '/' p.data).getLastD p.data)

/-- Lines 424-427: a truthy `requirements` path is copied next to the source
code (I/O) and its basename recorded on the `SourceCode`. -/
def attach_requirements (requirements : Option String) (ba : BuilderArgs) :
    BuilderArgs :=
  match requirements with
  | some r =>
    if !r.data.isEmpty then
      { ba with source_code := { ba.source_code with requirements := some (basename r) } }
    else ba
  | none => ba

/-- Lines 382-437 of `_get_args_from_recipe`, after the Nova branch: the
instance-count warning and fill, the requirements check, device dispatch
(`cpu` is a `ValueError`, a dotless instance type an `IndexError`), the gpu
or trainium builder, final-recipe resolution, requirements attachment, and
the final bundle with the fixed two-key hyperparameters.  The returned
`Compute` is the caller's object after any in-place mutation, and the list
collects logged warnings. -/
def standard_path_rest (env : Env) (recipe : Value) (compute : Compute)
    (requirements : Option String) (instance_type : String) :
    Res Args × Compute × List String :=
  match instance_count_warning recipe compute with
  | .ok warns =>
    match instance_count_fill recipe compute with
    | .ok compute' =>
      let res : Res Args := do
        let _ ← requirements_check env requirements
        let ba ←
          (match _determine_device_type instance_type with
           | none => Res.pyError "IndexError: list index out of range"
           | some d =>
             if d = "gpu" then _configure_gpu_args env recipe
             else if d = "trainium" then _configure_trainium_args env
             else
               Res.valueError ("Devices of type " ++ d ++ " are not supported with training recipes."))
        let _final ← resolve_final_recipe env.resolve recipe
        let ba := attach_requirements requirements ba
        pure { source_code := some ba.source_code,
               training_image := some ba.training_image,
               distributed := some ba.distributed,
               hyperparameters :=
                 [("config-path", Value.vStr "."), ("config-name", Value.vStr SM_RECIPE_YAML)],
               compute := compute' }
      (res, compute', warns)
    | .valueError m => (.valueError m, compute, warns)
    | .runtimeError m => (.runtimeError m, compute, warns)
    | .pyError m => (.pyError m, compute, warns)
  | .valueError m => (.valueError m, compute, [])
  | .runtimeError m => (.runtimeError m, compute, [])
  | .pyError m => (.pyError m, compute, [])

/-- Lines 334-437 (`_get_args_from_recipe`): the orchestrator.  A missing
`compute.instance_type` is a `ValueError` before anything else runs; the
registry load and name/path recipe loading are I/O (the already-loaded
recipe is the parameter, as in the `DictConfig` branch of lines 371-374);
a Nova-classified recipe is delegated to `_get_args_from_nova_recipe`; a
standard recipe must contain `trainer` and then follows
`standard_path_rest`. -/
def _get_args_from_recipe (env : Env) (training_recipe : Value)
    (compute : Compute) (requirements : Option String) (role : Option String) :
    Res Args × Compute × List String :=
  match compute.instance_type with
  | none =>
    (.valueError "Must set `instance_type` in compute when using training recipes.",
     compute, [])
  | some instance_type =>
    match _is_nova_recipe training_recipe with
    | .ok true =>
      let r := _get_args_from_nova_recipe env training_recipe compute role
      (r.1, r.2, [])
    | .ok false =>
      match val_hasKey training_recipe "trainer" with
      | .ok true => standard_path_rest env training_recipe compute requirements instance_type
      | .ok false =>
        (.valueError "Supplied recipe does not contain required field trainer.", compute, [])
      | .valueError m => (.valueError m, compute, [])
      | .runtimeError m => (.runtimeError m, compute, [])
      | .pyError m => (.pyError m, compute, [])
    | .valueError m => (.valueError m, compute, [])
    | .runtimeError m => (.runtimeError m, compute, [])
    | .pyError m => (.pyError m, compute, [])

/-- Modelled from the spec (§4.3), for comparison with `_is_nova_recipe`:
alternate iff `run.model_type` (case-insensitively) contains the vendor
marker token `"amazon.nova"` and `run.model_name_or_path` is present, or
`training_config.distillation_data` is present and non-empty. -/
def spec_is_alternate (recipe : Value) : Bool :=
  (match value_at_path recipe ["run", "model_type"] with
   | some (.vStr mt) =>
     str_contains (pyLower mt) "amazon.nova" &&
       (value_at_path recipe ["run", "model_name_or_path"]).isSome
   | _ => false)
  || (match value_at_path recipe ["training_config", "distillation_data"] with
      | some dd => truthy dd
      | none => false)

/-- The amended specification-side classifier: condition (2) asks only that
`training_config.distillation_data` is present with a non-null value (an
empty value still classifies as alternate). -/
def spec_is_alternate_nonnull (recipe : Value) : Bool :=
  (match value_at_path recipe ["run", "model_type"] with
   | some (.vStr mt) =>
     str_contains (pyLower mt) "amazon.nova" &&
       (value_at_path recipe ["run", "model_name_or_path"]).isSome
   | _ => false)
  || (match value_at_path recipe ["training_config", "distillation_data"] with
      | some dd => !dd.isNull
      | none => false)

/-- The identity resolver: `OmegaConf.resolve` on an expression-free recipe. -/
def id_resolve : Value → Option Value := fun v => some v

/-- A concrete environment for closed test runs. -/
def test_env : Env :=
  { resolve := id_resolve, isfile := fun _ => true, gpuImage := "gpu-image",
    neuronImage := "neuron-image", trainDir := "/tmp/train" }

end SmRecipes

namespace SmRecipes

/-! ### Helper lemmas -/

@[simp] theorem res_pure_eq_ok {α : Type} (a : α) : (pure a : Res α) = Res.ok a := rfl

@[simp] theorem res_bind_eq {α β : Type} (x : Res α) (f : α → Res β) :
    (x >>= f) = Res.bind x f := rfl

theorem str_contains_nova_ne_empty (s : String) :
    str_contains s "amazon.nova" = true → s.data.isEmpty = false := by
  intro h
  cases hd : s.data with
  | nil =>
    unfold str_contains at h
    rw [hd] at h
    exact absurd h (by decide)
  | cons c l => rfl

theorem str_contains_nova_ne_nil (s : String) :
    str_contains s "amazon.nova" = true → ¬ s.data = [] := by
  intro h hd
  have h2 := str_contains_nova_ne_empty s h
  rw [hd] at h2
  simp at h2

theorem nova_marker_absorb1 (s : String) :
    (!s.data.isEmpty && str_contains s "amazon.nova") = str_contains s "amazon.nova" := by
  cases hc : str_contains s "amazon.nova" with
  | false => simp
  | true => simp [str_contains_nova_ne_empty s hc]

theorem nova_marker_absorb (s : String) (k : Bool) :
    (!s.data.isEmpty && str_contains s "amazon.nova" && k) =
      (str_contains s "amazon.nova" && k) := by
  cases hc : str_contains s "amazon.nova" with
  | false => simp
  | true => simp [str_contains_nova_ne_empty s hc]

theorem splitOnChar_ne_nil (sep : Char) (l : List Char) : splitOnChar sep l ≠ [] := by
  cases l with
  | nil => simp [splitOnChar]
  | cons c rest =>
    simp only [splitOnChar]
    split
    · simp
    · split <;> simp

theorem mem_iff_two_le_splitOnChar_length (sep : Char) (l : List Char) :
    sep ∈ l ↔ 2 ≤ (splitOnChar sep l).length := by
  induction l with
  | nil => simp [splitOnChar]
  | cons c rest ih =>
    simp only [splitOnChar, List.mem_cons]
    by_cases hc : c = sep
    · subst hc
      rw [if_pos rfl]
      constructor
      · intro _
        have h1 : splitOnChar c rest ≠ [] := splitOnChar_ne_nil c rest
        have h2 : 1 ≤ (splitOnChar c rest).length := by
          cases hs : splitOnChar c rest with
          | nil => exact absurd hs h1
          | cons a t => simp
        simp only [List.length_cons]
        omega
      · intro _
        exact Or.inl rfl
    · rw [if_neg hc]
      cases hs : splitOnChar sep rest with
      | nil => exact absurd hs (splitOnChar_ne_nil sep rest)
      | cons a t =>
        simp only [List.length_cons]
        rw [hs] at ih
        simp only [List.length_cons] at ih
        constructor
        · intro h
          rcases h with h | h
          · exact absurd h.symm hc
          · exact ih.mp h
        · intro h
          exact Or.inr (ih.mpr h)

end SmRecipes

namespace SmRecipes

/-! ### Claim C7 -/

/-- Claim C7: for every call in which `compute.instance_type` is unset, the
orchestrator raises a `ValueError` (UsageError) immediately — the result is
the validation error, the caller's compute object is unchanged, and no
warning is logged — regardless of the recipe content, the environment, the
requirements path, or the role. -/
theorem C7_missing_instance_type_fails_first (env : Env) (recipe : Value)
    (count : Option Int) (requirements role : Option String) :
    _get_args_from_recipe env recipe
        { instance_type := none, instance_count := count } requirements role =
      (.valueError "Must set `instance_type` in compute when using training recipes.",
       { instance_type := none, instance_count := count }, []) := rfl

/-! ### Claim C4 -/

/-- Claim C4: final-recipe resolution tries exactly the roots
[recipe as-is, recipe under `recipes`, recipe under `training`] in that
order.  Part 1: when the first root resolves, its result is returned for
every behaviour of the resolver on the other two (wrapped) roots, i.e. the
later roots are never attempted.  Parts 2 and 3: each later root is used
exactly when all earlier roots failed.  Part 4: when all three roots fail,
the result is the fatal `RuntimeError` (the `runtimeError` constructor, not
the `valueError` used for usage mistakes). -/
theorem C4_resolution_root_order (resolve : Value → Option Value) (recipe : Value) :
    (∀ r, _try_resolve_recipe resolve recipe none = some r →
      resolve_final_recipe resolve recipe = .ok r) ∧
    (∀ r, _try_resolve_recipe resolve recipe none = none →
      _try_resolve_recipe resolve recipe (some "recipes") = some r →
      resolve_final_recipe resolve recipe = .ok r) ∧
    (∀ r, _try_resolve_recipe resolve recipe none = none →
      _try_resolve_recipe resolve recipe (some "recipes") = none →
      _try_resolve_recipe resolve recipe (some "training") = some r →
      resolve_final_recipe resolve recipe = .ok r) ∧
    (_try_resolve_recipe resolve recipe none = none →
      _try_resolve_recipe resolve recipe (some "recipes") = none →
      _try_resolve_recipe resolve recipe (some "training") = none →
      resolve_final_recipe resolve recipe =
        .runtimeError "Could not resolve provided recipe.") := by
  refine ⟨?_, ?_, ?_, ?_⟩
  · intro r h1
    simp [resolve_final_recipe, h1]
  · intro r h1 h2
    simp [resolve_final_recipe, h1, h2]
  · intro r h1 h2 h3
    simp [resolve_final_recipe, h1, h2, h3]
  · intro h1 h2 h3
    simp [resolve_final_recipe, h1, h2, h3]

/-- Witness for C4: with the identity resolver the first root resolves and
its result is returned. -/
theorem C4_resolution_root_order_witness :
    resolve_final_recipe id_resolve Value.vNull = .ok Value.vNull :=
  (C4_resolution_root_order id_resolve Value.vNull).1 Value.vNull rfl

/-! ### Claim C5 -/

/-- Claim C5: the device class is a pure function of the instance-type
family (the segment after the first dot): a `p`/`g` prefix gives gpu, a
`trn` prefix gives the accelerator class (called `trainium` in the source),
any other family gives `cpu`; and on the standard path a `cpu` family makes
the orchestrator fail with a `ValueError` naming the unsupported device
class instead of proceeding. -/
theorem C5_device_class_mapping :
    (∀ (t : String) (fam : List Char),
      (splitOnChar '.' t.data)[1]? = some fam →
      ((List.isPrefixOf ['p'] fam || List.isPrefixOf ['g'] fam) = true →
        _determine_device_type t = some "gpu") ∧
      (List.isPrefixOf ['t', 'r', 'n'] fam = true →
        _determine_device_type t = some "trainium") ∧
      ((List.isPrefixOf ['p'] fam || List.isPrefixOf ['g'] fam) = false →
        List.isPrefixOf ['t', 'r', 'n'] fam = false →
        _determine_device_type t = some "cpu")) ∧
    (∀ (env : Env) (recipe : Value) (compute : Compute)
      (requirements role : Option String) (t : String) (warns : List String)
      (compute' : Compute),
      compute.instance_type = some t →
      _is_nova_recipe recipe = .ok false →
      val_hasKey recipe "trainer" = .ok true →
      instance_count_warning recipe compute = .ok warns →
      instance_count_fill recipe compute = .ok compute' →
      requirements_check env requirements = .ok () →
      _determine_device_type t = some "cpu" →
      (_get_args_from_recipe env recipe compute requirements role).1 =
        .valueError "Devices of type cpu are not supported with training recipes.") := by
  constructor
  · intro t fam hsplit
    refine ⟨?_, ?_, ?_⟩
    · intro hpg
      simp [_determine_device_type, hsplit, hpg]
    · intro htrn
      cases fam with
      | nil => simp [List.isPrefixOf] at htrn
      | cons c cs =>
        simp only [List.isPrefixOf, Bool.and_eq_true, beq_iff_eq] at htrn
        obtain ⟨hc, hrn⟩ := htrn
        subst hc
        simp [_determine_device_type, hsplit, List.isPrefixOf, hrn]
    · intro hpg htrn
      simp [_determine_device_type, hsplit, hpg, htrn]
  · intro env recipe compute requirements role t warns compute' h1 h2 h3 h4 h5 h6 h7
    simp only [_get_args_from_recipe, h1, h2, h3, standard_path_rest, h4, h5]
    simp [Bind.bind, Res.bind, h6, h7]

/-- Witness for C5: a `c5` (cpu) family on an otherwise valid standard-path
call yields the unsupported-device `ValueError`. -/
theorem C5_device_class_mapping_witness :
    (_get_args_from_recipe test_env (.vMap [("trainer", .vMap [])])
        { instance_type := some "ml.c5.2xlarge", instance_count := some 2 }
        none none).1 =
      .valueError "Devices of type cpu are not supported with training recipes." :=
  C5_device_class_mapping.2 test_env (.vMap [("trainer", .vMap [])])
    { instance_type := some "ml.c5.2xlarge", instance_count := some 2 }
    none none "ml.c5.2xlarge" []
    { instance_type := some "ml.c5.2xlarge", instance_count := some 2 }
    rfl rfl rfl rfl rfl rfl rfl

/-! ### Claim C10 -/

/-- Claim C10: device determination reads the family as the segment after
the first `.`: on any instance type containing a dot it totally returns one
of `gpu`, `trainium` (the accelerator class) or `cpu`, while on a dotless
instance type the index `[1]` does not exist, so determination fails with a
Python `IndexError` — and the orchestrator surfaces that Python-level error
rather than a `ValueError`. -/
theorem C10_dotless_instance_type_index_error :
    (∀ t : String, ('.' : Char) ∈ t.data →
      ∃ d, _determine_device_type t = some d ∧
        (d = "gpu" ∨ d = "trainium" ∨ d = "cpu")) ∧
    (∀ t : String, ('.' : Char) ∉ t.data → _determine_device_type t = none) ∧
    (∀ (env : Env) (recipe : Value) (compute : Compute)
      (requirements role : Option String) (t : String) (warns : List String)
      (compute' : Compute),
      compute.instance_type = some t →
      _is_nova_recipe recipe = .ok false →
      val_hasKey recipe "trainer" = .ok true →
      instance_count_warning recipe compute = .ok warns →
      instance_count_fill recipe compute = .ok compute' →
      requirements_check env requirements = .ok () →
      ('.' : Char) ∉ t.data →
      (_get_args_from_recipe env recipe compute requirements role).1 =
        .pyError "IndexError: list index out of range") := by
  have hnone : ∀ t : String, ('.' : Char) ∉ t.data → _determine_device_type t = none := by
    intro t h
    have h2 : ¬ 2 ≤ (splitOnChar '.' t.data).length := by
      intro hle
      exact h ((mem_iff_two_le_splitOnChar_length '.' t.data).mpr hle)
    cases hs : splitOnChar '.' t.data with
    | nil => exact absurd hs (splitOnChar_ne_nil '.' t.data)
    | cons a rest =>
      cases rest with
      | nil => simp [_determine_device_type, hs]
      | cons b t' =>
        rw [hs] at h2
        simp at h2
  refine ⟨?_, hnone, ?_⟩
  · intro t h
    have h2 : 2 ≤ (splitOnChar '.' t.data).length :=
      (mem_iff_two_le_splitOnChar_length '.' t.data).mp h
    cases hs : splitOnChar '.' t.data with
    | nil => exact absurd hs (splitOnChar_ne_nil '.' t.data)
    | cons a rest =>
      cases rest with
      | nil =>
        rw [hs] at h2
        simp at h2
      | cons b t' =>
        have hdev : _determine_device_type t =
            some (if List.isPrefixOf ['p'] b || List.isPrefixOf ['g'] b then "gpu"
                  else if List.isPrefixOf ['t', 'r', 'n'] b then "trainium" else "cpu") := by
          simp only [_determine_device_type, hs, List.getElem?_cons_succ,
            List.getElem?_cons_zero]
          split
          · rfl
          · split <;> rfl
        refine ⟨_, hdev, ?_⟩
        split
        · exact Or.inl rfl
        · split
          · exact Or.inr (Or.inl rfl)
          · exact Or.inr (Or.inr rfl)
  · intro env recipe compute requirements role t warns compute' h1 h2 h3 h4 h5 h6 hdot
    have h7 := hnone t hdot
    simp only [_get_args_from_recipe, h1, h2, h3, standard_path_rest, h4, h5]
    simp [Bind.bind, Res.bind, h6, h7]

/-- Witness for C10: the dotless instance type `"local"` makes an otherwise
valid standard-path call surface the modelled `IndexError`. -/
theorem C10_dotless_instance_type_index_error_witness :
    (_get_args_from_recipe test_env (.vMap [("trainer", .vMap [])])
        { instance_type := some "local", instance_count := some 2 }
        none none).1 =
      .pyError "IndexError: list index out of range" :=
  C10_dotless_instance_type_index_error.2.2 test_env (.vMap [("trainer", .vMap [])])
    { instance_type := some "local", instance_count := some 2 }
    none none "local" []
    { instance_type := some "local", instance_count := some 2 }
    rfl rfl rfl rfl rfl rfl (by decide)

/-! ### Claim C1 -/

/-- Counterexample to claim C1 as stated: the recipe `{trainer: {}}` is
routed to the standard path (not Nova-classified) and contains neither
`model` nor `model.model_type`, yet on a trainium (accelerator) instance
type resolution succeeds instead of failing with a UsageError — the `model`
checks of `_configure_gpu_args` run only on the gpu device class. -/
theorem C1_counterexample :
    _is_nova_recipe (.vMap [("trainer", .vMap [])]) = .ok false ∧
    val_hasKey (.vMap [("trainer", .vMap [])]) "model" = .ok false ∧
    ((_get_args_from_recipe test_env (.vMap [("trainer", .vMap [])])
        { instance_type := some "ml.trn1.32xlarge", instance_count := some 2 }
        none none).1).isOk = true :=
  ⟨rfl, rfl, rfl⟩

/-- Claim C1 as amended: on the standard path a missing `trainer` always
fails with a `ValueError` naming `trainer`, regardless of device class; the
`model` and `model.model_type` requirements apply only when the device class
is gpu (parts 2 and 3, after the instance-count and requirements validations
pass); the trainium (accelerator) builder performs no recipe validation at
all (part 4), so a standard-path recipe without `model` can resolve
successfully there. -/
theorem C1_standard_required_fields :
    (∀ (env : Env) (recipe : Value) (compute : Compute)
      (requirements role : Option String) (t : String),
      compute.instance_type = some t →
      _is_nova_recipe recipe = .ok false →
      val_hasKey recipe "trainer" = .ok false →
      (_get_args_from_recipe env recipe compute requirements role).1 =
        .valueError "Supplied recipe does not contain required field trainer.") ∧
    (∀ (env : Env) (recipe : Value) (compute : Compute)
      (requirements role : Option String) (t : String) (warns : List String)
      (compute' : Compute),
      compute.instance_type = some t →
      _is_nova_recipe recipe = .ok false →
      val_hasKey recipe "trainer" = .ok true →
      instance_count_warning recipe compute = .ok warns →
      instance_count_fill recipe compute = .ok compute' →
      requirements_check env requirements = .ok () →
      _determine_device_type t = some "gpu" →
      val_hasKey recipe "model" = .ok false →
      (_get_args_from_recipe env recipe compute requirements role).1 =
        .valueError "Supplied recipe does not contain required field model.") ∧
    (∀ (env : Env) (recipe : Value) (compute : Compute)
      (requirements role : Option String) (t : String) (warns : List String)
      (compute' : Compute) (modelv : Value),
      compute.instance_type = some t →
      _is_nova_recipe recipe = .ok false →
      val_hasKey recipe "trainer" = .ok true →
      instance_count_warning recipe compute = .ok warns →
      instance_count_fill recipe compute = .ok compute' →
      requirements_check env requirements = .ok () →
      _determine_device_type t = some "gpu" →
      val_hasKey recipe "model" = .ok true →
      val_idx recipe "model" = .ok modelv →
      val_hasKey modelv "model_type" = .ok false →
      (_get_args_from_recipe env recipe compute requirements role).1 =
        .valueError "Supplied recipe does not contain required field model_type.") ∧
    (∀ env : Env, (_configure_trainium_args env).isOk = true) := by
  refine ⟨?_, ?_, ?_, fun _ => rfl⟩
  · intro env recipe compute requirements role t h1 h2 h3
    simp [_get_args_from_recipe, h1, h2, h3]
  · intro env recipe compute requirements role t warns compute' h1 h2 h3 h4 h5 h6 h7 h8
    simp only [_get_args_from_recipe, h1, h2, h3, standard_path_rest, h4, h5]
    simp [Bind.bind, Res.bind, h6, h7, _configure_gpu_args, h8]
  · intro env recipe compute requirements role t warns compute' modelv
      h1 h2 h3 h4 h5 h6 h7 h8 h9 h10
    simp only [_get_args_from_recipe, h1, h2, h3, standard_path_rest, h4, h5]
    simp [Bind.bind, Res.bind, h6, h7, _configure_gpu_args, h8, h9, h10]

/-- Witness for C1: a gpu-family call whose recipe has `trainer` but no
`model` fails naming `model`. -/
theorem C1_standard_required_fields_witness :
    (_get_args_from_recipe test_env (.vMap [("trainer", .vMap [])])
        { instance_type := some "ml.p4d.24xlarge", instance_count := some 1 }
        none none).1 =
      .valueError "Supplied recipe does not contain required field model." :=
  C1_standard_required_fields.2.1 test_env (.vMap [("trainer", .vMap [])])
    { instance_type := some "ml.p4d.24xlarge", instance_count := some 1 }
    none none "ml.p4d.24xlarge" []
    { instance_type := some "ml.p4d.24xlarge", instance_count := some 1 }
    rfl rfl rfl rfl rfl rfl rfl rfl

/-! ### Claim C6 -/

/-- Counterexample to claim C6 as stated: with a caller-supplied
`instance_count` of `0` and `trainer.num_nodes` present, the count is kept
(`0` is not `None`) but no warning is logged (`0` is falsy), and resolution
succeeds — the claim's "kept (with a warning)" fails for a supplied `0`. -/
theorem C6_counterexample :
    (_get_args_from_recipe test_env
        (.vMap [("trainer", .vMap [("num_nodes", .vInt 5)]),
                ("model", .vMap [("model_type", .vStr "llama")])])
        { instance_type := some "ml.p4d.24xlarge", instance_count := some 0 }
        none none).2.2 = [] ∧
    (_get_args_from_recipe test_env
        (.vMap [("trainer", .vMap [("num_nodes", .vInt 5)]),
                ("model", .vMap [("model_type", .vStr "llama")])])
        { instance_type := some "ml.p4d.24xlarge", instance_count := some 0 }
        none none).2.1.instance_count = some 0 ∧
    ((_get_args_from_recipe test_env
        (.vMap [("trainer", .vMap [("num_nodes", .vInt 5)]),
                ("model", .vMap [("model_type", .vStr "llama")])])
        { instance_type := some "ml.p4d.24xlarge", instance_count := some 0 }
        none none).1).isOk = true :=
  ⟨rfl, rfl, rfl⟩

/-- Claim C6 as amended: on the standard path with `trainer` present,
(1) a nonzero caller-supplied `instance_count` is kept and, when the recipe
also has `trainer.num_nodes`, the warning is logged; (2) a caller-supplied
`instance_count` of `0` is also kept, but silently; (3) an omitted
`instance_count` is filled in place from `trainer.num_nodes`; (4) when
neither is present, resolution fails with the `ValueError` naming both
options. -/
theorem C6_instance_count_reconciliation :
    (∀ (env : Env) (recipe : Value) (requirements role : Option String)
      (t : String) (n : Int) (trainer : Value),
      n ≠ 0 →
      _is_nova_recipe recipe = .ok false →
      val_hasKey recipe "trainer" = .ok true →
      val_idx recipe "trainer" = .ok trainer →
      val_hasKey trainer "num_nodes" = .ok true →
      (_get_args_from_recipe env recipe
          { instance_type := some t, instance_count := some n } requirements role).2.1.instance_count
          = some n ∧
        (_get_args_from_recipe env recipe
          { instance_type := some t, instance_count := some n } requirements role).2.2
          = [num_nodes_warning]) ∧
    (∀ (env : Env) (recipe : Value) (requirements role : Option String)
      (t : String),
      _is_nova_recipe recipe = .ok false →
      val_hasKey recipe "trainer" = .ok true →
      (_get_args_from_recipe env recipe
          { instance_type := some t, instance_count := some 0 } requirements role).2.1.instance_count
          = some 0 ∧
        (_get_args_from_recipe env recipe
          { instance_type := some t, instance_count := some 0 } requirements role).2.2
          = []) ∧
    (∀ (env : Env) (recipe : Value) (requirements role : Option String)
      (t : String) (m : Int) (trainer : Value),
      _is_nova_recipe recipe = .ok false →
      val_hasKey recipe "trainer" = .ok true →
      val_idx recipe "trainer" = .ok trainer →
      val_hasKey trainer "num_nodes" = .ok true →
      val_idx trainer "num_nodes" = .ok (.vInt m) →
      (_get_args_from_recipe env recipe
          { instance_type := some t, instance_count := none } requirements role).2.1.instance_count
          = some m) ∧
    (∀ (env : Env) (recipe : Value) (requirements role : Option String)
      (t : String) (trainer : Value),
      _is_nova_recipe recipe = .ok false →
      val_hasKey recipe "trainer" = .ok true →
      val_idx recipe "trainer" = .ok trainer →
      val_hasKey trainer "num_nodes" = .ok false →
      (_get_args_from_recipe env recipe
          { instance_type := some t, instance_count := none } requirements role).1 =
        .valueError
          "Must provide Compute with instance_count or set trainer -> num_nodes in recipe.") := by
  refine ⟨?_, ?_, ?_, ?_⟩
  · intro env recipe requirements role t n trainer hn h2 h3 h4 h5
    have hw : instance_count_warning recipe
        { instance_type := some t, instance_count := some n } = .ok [num_nodes_warning] := by
      simp [instance_count_warning, truthyCount, hn, h4, h5, Bind.bind, Res.bind]
    have hf : instance_count_fill recipe
        { instance_type := some t, instance_count := some n } =
        .ok { instance_type := some t, instance_count := some n } := rfl
    constructor
    · simp only [_get_args_from_recipe, h2, h3, standard_path_rest, hw, hf]
    · simp only [_get_args_from_recipe, h2, h3, standard_path_rest, hw, hf]
  · intro env recipe requirements role t h2 h3
    have hw : instance_count_warning recipe
        { instance_type := some t, instance_count := some 0 } = .ok [] := rfl
    have hf : instance_count_fill recipe
        { instance_type := some t, instance_count := some 0 } =
        .ok { instance_type := some t, instance_count := some 0 } := rfl
    constructor
    · simp only [_get_args_from_recipe, h2, h3, standard_path_rest, hw, hf]
    · simp only [_get_args_from_recipe, h2, h3, standard_path_rest, hw, hf]
  · intro env recipe requirements role t m trainer h2 h3 h4 h5 h6
    have hw : instance_count_warning recipe
        { instance_type := some t, instance_count := none } = .ok [] := rfl
    have hf : instance_count_fill recipe
        { instance_type := some t, instance_count := none } =
        .ok { instance_type := some t, instance_count := some m } := by
      simp [instance_count_fill, h4, h5, h6, Bind.bind, Res.bind]
    simp only [_get_args_from_recipe, h2, h3, standard_path_rest, hw, hf]
  · intro env recipe requirements role t trainer h2 h3 h4 h5
    have hw : instance_count_warning recipe
        { instance_type := some t, instance_count := none } = .ok [] := rfl
    have hf : instance_count_fill recipe
        { instance_type := some t, instance_count := none } =
        .valueError
          "Must provide Compute with instance_count or set trainer -> num_nodes in recipe." := by
      simp [instance_count_fill, h4, h5, Bind.bind, Res.bind]
    simp only [_get_args_from_recipe, h2, h3, standard_path_rest, hw, hf]

/-- Witness for C6: a supplied count of `3` with `num_nodes: 5` in the
recipe is kept and the warning is logged. -/
theorem C6_instance_count_reconciliation_witness :
    (_get_args_from_recipe test_env
        (.vMap [("trainer", .vMap [("num_nodes", .vInt 5)])])
        { instance_type := some "ml.trn1.32xlarge", instance_count := some 3 }
        none none).2.1.instance_count = some 3 ∧
    (_get_args_from_recipe test_env
        (.vMap [("trainer", .vMap [("num_nodes", .vInt 5)])])
        { instance_type := some "ml.trn1.32xlarge", instance_count := some 3 }
        none none).2.2 = [num_nodes_warning] :=
  C6_instance_count_reconciliation.1 test_env
    (.vMap [("trainer", .vMap [("num_nodes", .vInt 5)])]) none none
    "ml.trn1.32xlarge" 3 (.vMap [("num_nodes", .vInt 5)])
    (by decide) rfl rfl rfl rfl

/-! ### Claim C9 -/

/-- Claim C9: on the alternate (Nova) path, when the caller's
`instance_count` is falsy and the recipe provides a truthy `run.replicas`,
the count is assigned in place before the distillation validation, so the
returned compute object carries the replica count even though the call
raises the missing-`role` `ValueError`. -/
theorem C9_nova_count_mutation_before_validation :
    ∀ (env : Env) (recipe : Value) (compute : Compute) (runv tcv dd : Value)
      (m : Int) (hp : List (String × Value)),
      truthyCount compute.instance_count = false →
      val_get recipe "run" (.vMap []) = .ok runv →
      val_get runv "replicas" .vNull = .ok (.vInt m) →
      m ≠ 0 →
      nova_model_hp recipe = .ok hp →
      val_get recipe "training_config" (.vMap []) = .ok tcv →
      val_get tcv "distillation_data" .vNull = .ok dd →
      truthy dd = true →
      (_get_args_from_nova_recipe env recipe compute none).1 =
          .valueError "Must provide \x27role\x27 parameter when using Nova distillation" ∧
        (_get_args_from_nova_recipe env recipe compute none).2.instance_count = some m := by
  intro env recipe compute runv tcv dd m hp h1 h2 h3 hm h5 h6 h7 h8
  have hcount : nova_count_step recipe compute =
      .ok { compute with instance_count := some m } := by
    simp [nova_count_step, h1, h2, h3, truthy, hm, Res.bind]
  have hdistill : nova_distill_hp recipe none =
      .valueError "Must provide \x27role\x27 parameter when using Nova distillation" := by
    simp [nova_distill_hp, h6, h7, h8, Res.bind]
  constructor
  · simp [_get_args_from_nova_recipe, hcount, h5, hdistill, Res.bind]
  · simp [_get_args_from_nova_recipe, hcount]

/-- Witness for C9: instance count unset, `run.replicas: 4`, distillation
present, no role — the call fails but the returned compute carries count 4. -/
theorem C9_nova_count_mutation_before_validation_witness :
    (_get_args_from_nova_recipe test_env
        (.vMap [("run", .vMap [("replicas", .vInt 4)]),
                ("training_config", .vMap [("distillation_data", .vStr "s3://data")])])
        { instance_type := some "ml.p5.48xlarge", instance_count := none } none).1 =
        .valueError "Must provide \x27role\x27 parameter when using Nova distillation" ∧
      (_get_args_from_nova_recipe test_env
        (.vMap [("run", .vMap [("replicas", .vInt 4)]),
                ("training_config", .vMap [("distillation_data", .vStr "s3://data")])])
        { instance_type := some "ml.p5.48xlarge", instance_count := none } none).2.instance_count
        = some 4 :=
  C9_nova_count_mutation_before_validation test_env
    (.vMap [("run", .vMap [("replicas", .vInt 4)]),
            ("training_config", .vMap [("distillation_data", .vStr "s3://data")])])
    { instance_type := some "ml.p5.48xlarge", instance_count := none }
    (.vMap [("replicas", .vInt 4)])
    (.vMap [("distillation_data", .vStr "s3://data")])
    (.vStr "s3://data") 4 []
    rfl rfl rfl (by decide) rfl rfl rfl rfl

/-! ### Claim C3 -/

/-- Counterexample to claim C3 as stated, in two parts.  Part A: the recipe
`{training_config: {distillation_data: ""}}` has `distillation_data`
present and is classified alternate, yet with no `role` the builder
succeeds (an empty value is falsy, so the distillation validation is
skipped entirely).  Part B: with a truthy `distillation_data`, `role`
supplied and `kms_key` present, the builder still raises a `ValueError`
(the instance-count requirement) instead of returning the hyperparameters
map, because neither `compute.instance_count` nor `run.replicas` is set. -/
theorem C3_counterexample :
    (_is_nova_recipe
        (.vMap [("training_config", .vMap [("distillation_data", .vStr "")])]) = .ok true ∧
      (value_at_path
        (.vMap [("training_config", .vMap [("distillation_data", .vStr "")])])
        ["training_config", "distillation_data"]).isSome = true ∧
      ((_get_args_from_nova_recipe test_env
        (.vMap [("training_config", .vMap [("distillation_data", .vStr "")])])
        { instance_type := some "ml.p5.48xlarge", instance_count := some 2 } none).1).isOk
        = true) ∧
    ((_get_args_from_nova_recipe test_env
        (.vMap [("training_config",
                 .vMap [("distillation_data", .vStr "s3://d"), ("kms_key", .vStr "k")])])
        { instance_type := some "ml.p5.48xlarge", instance_count := none }
        (some "arn:aws:iam::0:role/x")).1 =
      .valueError "Must set ``instance_type`` in compute or ``replicas`` in recipe.") :=
  ⟨⟨rfl, rfl, rfl⟩, rfl⟩

/-- Claim C3 as amended: for every alternate-path recipe whose
`training_config.distillation_data` is present and truthy (non-empty), and
whose instance-count requirement passes (`compute.instance_count` truthy or
`run.replicas` truthy, i.e. `nova_count_step` succeeds): a falsy `role` is
a `ValueError`; a truthy `role` with a null/absent `kms_key` is a
`ValueError`; a truthy `role` with a non-null `kms_key` returns the bundle
whose hyperparameters contain `distillation_data`, `role_arn` and
`kms_key`. -/
theorem C3_distillation_requirements :
    ∀ (env : Env) (recipe : Value) (compute compute' : Compute)
      (hp0 : List (String × Value)) (tcv dd : Value),
      nova_count_step recipe compute = .ok compute' →
      nova_model_hp recipe = .ok hp0 →
      val_get recipe "training_config" (.vMap []) = .ok tcv →
      val_get tcv "distillation_data" .vNull = .ok dd →
      truthy dd = true →
      (∀ role : Option String, truthyRole role = false →
        (_get_args_from_nova_recipe env recipe compute role).1 =
          .valueError "Must provide \x27role\x27 parameter when using Nova distillation") ∧
      (∀ ro : String, truthyRole (some ro) = true →
        val_get tcv "kms_key" .vNull = .ok .vNull →
        (_get_args_from_nova_recipe env recipe compute (some ro)).1 =
          .valueError
            "Nova distillation job recipe requires \x22kms_key\x22 field in \x22training_config\x22") ∧
      (∀ (ro : String) (kv fr : Value), truthyRole (some ro) = true →
        val_get tcv "kms_key" .vNull = .ok kv →
        kv.isNull = false →
        resolve_final_recipe env.resolve recipe = .ok fr →
        (_get_args_from_nova_recipe env recipe compute (some ro)).1 =
          .ok { source_code := none, training_image := none, distributed := none,
                hyperparameters := hp0 ++
                  [("distillation_data", dd), ("role_arn", .vStr ro), ("kms_key", kv)],
                compute := compute' }) := by
  intro env recipe compute compute' hp0 tcv dd hc hm htc hdd hdt
  refine ⟨?_, ?_, ?_⟩
  · intro role hrole
    cases role with
    | none =>
      have hdistill : nova_distill_hp recipe none =
          .valueError "Must provide \x27role\x27 parameter when using Nova distillation" := by
        simp [nova_distill_hp, htc, hdd, hdt, Res.bind]
      simp [_get_args_from_nova_recipe, hc, hm, hdistill, Res.bind]
    | some s =>
      have hse : s.data.isEmpty = true := by
        simp [truthyRole] at hrole
        rw [hrole]
        rfl
      have hdistill : nova_distill_hp recipe (some s) =
          .valueError "Must provide \x27role\x27 parameter when using Nova distillation" := by
        simp [nova_distill_hp, htc, hdd, hdt, hse, Res.bind]
      simp [_get_args_from_nova_recipe, hc, hm, hdistill, Res.bind]
  · intro ro hro hkms
    have hse : ro.data.isEmpty = false := by
      simp [truthyRole] at hro
      cases hd : ro.data with
      | nil => exact absurd hd hro
      | cons a l => rfl
    have hdistill : nova_distill_hp recipe (some ro) =
        .valueError
          "Nova distillation job recipe requires \x22kms_key\x22 field in \x22training_config\x22" := by
      simp [nova_distill_hp, htc, hdd, hdt, hse, hkms, Res.bind, Value.isNull]
    simp [_get_args_from_nova_recipe, hc, hm, hdistill, Res.bind]
  · intro ro kv fr hro hkms hkv hres
    have hse : ro.data.isEmpty = false := by
      simp [truthyRole] at hro
      cases hd : ro.data with
      | nil => exact absurd hd hro
      | cons a l => rfl
    have hdistill : nova_distill_hp recipe (some ro) =
        .ok [("distillation_data", dd), ("role_arn", .vStr ro), ("kms_key", kv)] := by
      simp [nova_distill_hp, htc, hdd, hdt, hse, hkms, hkv, Res.bind]
    simp [_get_args_from_nova_recipe, hc, hm, hdistill, hres, Res.bind]

/-- Witness for C3: truthy distillation data, role and `kms_key` both
provided, instance count set — the builder returns the bundle whose
hyperparameters hold the three distillation keys. -/
theorem C3_distillation_requirements_witness :
    (_get_args_from_nova_recipe test_env
        (.vMap [("training_config",
                 .vMap [("distillation_data", .vStr "s3://d"), ("kms_key", .vStr "kms1")])])
        { instance_type := some "ml.p5.48xlarge", instance_count := some 2 }
        (some "arn:role")).1 =
      .ok { source_code := none, training_image := none, distributed := none,
            hyperparameters :=
              [("distillation_data", .vStr "s3://d"), ("role_arn", .vStr "arn:role"),
               ("kms_key", .vStr "kms1")],
            compute := { instance_type := some "ml.p5.48xlarge", instance_count := some 2 } } :=
  (C3_distillation_requirements test_env
      (.vMap [("training_config",
               .vMap [("distillation_data", .vStr "s3://d"), ("kms_key", .vStr "kms1")])])
      { instance_type := some "ml.p5.48xlarge", instance_count := some 2 }
      { instance_type := some "ml.p5.48xlarge", instance_count := some 2 }
      [] (.vMap [("distillation_data", .vStr "s3://d"), ("kms_key", .vStr "kms1")])
      (.vStr "s3://d") rfl rfl rfl rfl rfl).2.2 "arn:role" (.vStr "kms1")
    (.vMap [("training_config",
             .vMap [("distillation_data", .vStr "s3://d"), ("kms_key", .vStr "kms1")])])
    rfl rfl rfl rfl

/-! ### Claim C2 -/

/-- Counterexample to claim C2 as stated: the recipe
`{training_config: {distillation_data: ""}}` has `distillation_data`
present but empty, so the claim's condition (2) ("present and non-empty")
does not hold — `spec_is_alternate` is `false` — yet the classifier returns
alternate, because line 267 only tests `is not None`. -/
theorem C2_counterexample :
    _is_nova_recipe
        (.vMap [("training_config", .vMap [("distillation_data", .vStr "")])]) =
      .ok true ∧
    spec_is_alternate
        (.vMap [("training_config", .vMap [("distillation_data", .vStr "")])]) = false :=
  ⟨rfl, rfl⟩

/-- Claim C2 as amended: whenever the classifier returns (does not crash),
it returns alternate iff `run.model_type`, compared case-insensitively,
contains the vendor marker token `"amazon.nova"` and `run.model_name_or_path`
is present in `run`, or `training_config.distillation_data` is present with
a non-null value (even an empty one); otherwise standard. -/
theorem C2_classifier_characterization :
    ∀ (recipe : Value) (b : Bool),
      _is_nova_recipe recipe = .ok b → b = spec_is_alternate_nonnull recipe := by
  intro recipe b h
  cases recipe with
  | vNull => simp [_is_nova_recipe, val_get, Res.bind, Bind.bind] at h
  | vStr s => simp [_is_nova_recipe, val_get, Res.bind, Bind.bind] at h
  | vInt n => simp [_is_nova_recipe, val_get, Res.bind, Bind.bind] at h
  | vBool b0 => simp [_is_nova_recipe, val_get, Res.bind, Bind.bind] at h
  | vSeq xs => simp [_is_nova_recipe, val_get, Res.bind, Bind.bind] at h
  | vMap es =>
    simp only [_is_nova_recipe, val_get, Res.bind, Bind.bind] at h
    cases hrun : alookup es "run" with
    | none =>
      rw [hrun] at h
      cases htc : alookup es "training_config" with
      | none =>
        rw [htc] at h
        simp only [Option.getD, alookup, val_hasKey, res_pure_eq_ok, Res.ok.injEq] at h
        simp [spec_is_alternate_nonnull, value_at_path, hrun, htc, ← h, pyLower, Value.isNull]
      | some tcv =>
        rw [htc] at h
        cases tcv with
        | vMap tces =>
          simp only [Option.getD, alookup, val_hasKey, res_pure_eq_ok, Res.ok.injEq] at h
          simp only [spec_is_alternate_nonnull, value_at_path, hrun, htc, ← h, pyLower]
          cases hdd : alookup tces "distillation_data" <;> simp [hdd, pyLower, Value.isNull]
        | vNull => simp [Option.getD, alookup, val_hasKey] at h
        | vStr s => simp [Option.getD, alookup, val_hasKey] at h
        | vInt n => simp [Option.getD, alookup, val_hasKey] at h
        | vBool b0 => simp [Option.getD, alookup, val_hasKey] at h
        | vSeq xs => simp [Option.getD, alookup, val_hasKey] at h
    | some runv =>
      rw [hrun] at h
      cases runv with
      | vMap runes =>
        simp only [Option.getD] at h
        cases hmt : alookup runes "model_type" with
        | none =>
          rw [hmt] at h
          cases htc : alookup es "training_config" with
          | none =>
            rw [htc] at h
            simp only [Option.getD, alookup, val_hasKey, res_pure_eq_ok, Res.ok.injEq] at h
            simp [spec_is_alternate_nonnull, value_at_path, hrun, hmt, htc, ← h, pyLower, Value.isNull]
          | some tcv =>
            rw [htc] at h
            cases tcv with
            | vMap tces =>
              simp only [Option.getD, alookup, val_hasKey, res_pure_eq_ok, Res.ok.injEq] at h
              simp only [spec_is_alternate_nonnull, value_at_path, hrun, hmt, htc, ← h, pyLower]
              cases hdd : alookup tces "distillation_data" <;> simp [hdd, pyLower, Value.isNull]
            | vNull => simp [Option.getD, alookup, val_hasKey] at h
            | vStr s => simp [Option.getD, alookup, val_hasKey] at h
            | vInt n => simp [Option.getD, alookup, val_hasKey] at h
            | vBool b0 => simp [Option.getD, alookup, val_hasKey] at h
            | vSeq xs => simp [Option.getD, alookup, val_hasKey] at h
        | some mtv =>
          rw [hmt] at h
          cases mtv with
          | vStr mt0 =>
            cases htc : alookup es "training_config" with
            | none =>
              rw [htc] at h
              simp only [Option.getD, alookup, val_hasKey, res_pure_eq_ok, Res.ok.injEq] at h
              simp only [spec_is_alternate_nonnull, value_at_path, hrun, hmt, htc, ← h]
              cases hmn : alookup runes "model_name_or_path" <;>
                simp [hmn, nova_marker_absorb, nova_marker_absorb1, Value.isNull, alookup]
            | some tcv =>
              rw [htc] at h
              cases tcv with
              | vMap tces =>
                simp only [Option.getD, alookup, val_hasKey, res_pure_eq_ok, Res.ok.injEq] at h
                simp only [spec_is_alternate_nonnull, value_at_path, hrun, hmt, htc, ← h]
                cases hdd : alookup tces "distillation_data" <;>
                  cases hmn : alookup runes "model_name_or_path" <;>
                    simp [hdd, hmn, nova_marker_absorb, nova_marker_absorb1, Value.isNull, alookup]
              | vNull => simp [Option.getD, alookup, val_hasKey] at h
              | vStr s => simp [Option.getD, alookup, val_hasKey] at h
              | vInt n => simp [Option.getD, alookup, val_hasKey] at h
              | vBool b0 => simp [Option.getD, alookup, val_hasKey] at h
              | vSeq xs => simp [Option.getD, alookup, val_hasKey] at h
          | vNull => simp [Option.getD, alookup, val_hasKey] at h
          | vInt n => simp [Option.getD, alookup, val_hasKey] at h
          | vBool b0 => simp [Option.getD, alookup, val_hasKey] at h
          | vMap l => simp [Option.getD, alookup, val_hasKey] at h
          | vSeq xs => simp [Option.getD, alookup, val_hasKey] at h
      | vNull => simp [Option.getD, alookup, val_hasKey] at h
      | vStr s => simp [Option.getD, alookup, val_hasKey] at h
      | vInt n => simp [Option.getD, alookup, val_hasKey] at h
      | vBool b0 => simp [Option.getD, alookup, val_hasKey] at h
      | vSeq xs => simp [Option.getD, alookup, val_hasKey] at h

/-- Witness for C2: a recipe whose `run.model_type` carries the vendor
marker and whose `run.model_name_or_path` is present is classified
alternate, and the amended specification-side classifier agrees. -/
theorem C2_classifier_characterization_witness :
    true = spec_is_alternate_nonnull
      (.vMap [("run", .vMap [("model_type", .vStr "Amazon.Nova-micro-v1"),
                             ("model_name_or_path", .vStr "s3://bucket/model")])]) :=
  C2_classifier_characterization
    (.vMap [("run", .vMap [("model_type", .vStr "Amazon.Nova-micro-v1"),
                           ("model_name_or_path", .vStr "s3://bucket/model")])]) true rfl

/-! ### Merge lemmas and claim C8 -/

theorem valueSize_pos (v : Value) : 1 ≤ valueSize v := by
  cases v <;> simp [valueSize]

theorem alookup_entriesSize_le (b : List (String × Value)) (k : String) (vb : Value)
    (h : alookup b k = some vb) : valueSize vb ≤ entriesSize b := by
  induction b with
  | nil => simp [alookup] at h
  | cons p rest ih =>
    obtain ⟨k0, v0⟩ := p
    by_cases hk : k0 = k
    · rw [alookup, if_pos hk] at h
      obtain rfl : v0 = vb := by injection h
      simp [entriesSize]
      omega
    · rw [alookup, if_neg hk] at h
      have := ih h
      simp [entriesSize]
      omega

theorem alookup_valueSize_lt (b : List (String × Value)) (k : String) (vb : Value)
    (h : alookup b k = some vb) : valueSize vb < valueSize (.vMap b) := by
  have := alookup_entriesSize_le b k vb h
  simp [valueSize]
  omega

theorem alookup_append (l1 l2 : List (String × Value)) (k : String) :
    alookup (l1 ++ l2) k =
      match alookup l1 k with
      | some v => some v
      | none => alookup l2 k := by
  induction l1 with
  | nil => rfl
  | cons p rest ih =>
    obtain ⟨k0, v0⟩ := p
    by_cases hk : k0 = k <;> simp [alookup, hk, ih]

theorem alookup_merge_left (fuel : Nat) (a b : List (String × Value)) (k : String) :
    alookup (a.map (fun p =>
        match alookup b p.1 with
        | some vb => (p.1, mergeValF fuel p.2 vb)
        | none => p)) k =
      (alookup a k).map (fun va =>
        match alookup b k with
        | some vb => mergeValF fuel va vb
        | none => va) := by
  induction a with
  | nil => rfl
  | cons p rest ih =>
    obtain ⟨k0, v0⟩ := p
    by_cases hk : k0 = k
    · subst hk
      cases hb : alookup b k0 <;> simp [alookup, hb]
    · cases hb : alookup b k0 <;> simp [alookup, hk, hb, ih]

theorem mergeValF_value_at_path (path : List String) :
    ∀ (fuel : Nat) (base ov v : Value),
      valueSize ov ≤ fuel →
      value_at_path ov path = some v →
      v.isMap = false →
      (value_at_path base path).isSome = true →
      value_at_path (mergeValF fuel base ov) path = some v := by
  induction path with
  | nil =>
    intro fuel base ov v hfuel hov hvm _
    simp only [value_at_path, Option.some.injEq] at hov
    subst hov
    have h1 := valueSize_pos ov
    cases fuel with
    | zero => omega
    | succ f =>
      cases ov <;> simp [Value.isMap] at hvm <;> cases base <;>
        simp [mergeValF, value_at_path]
  | cons k rest ih =>
    intro fuel base ov v hfuel hov hvm hbase
    cases ov with
    | vMap b =>
      simp only [value_at_path] at hov
      cases hb : alookup b k with
      | none => rw [hb] at hov; simp at hov
      | some vb =>
        rw [hb] at hov
        cases base with
        | vMap a =>
          simp only [value_at_path] at hbase
          cases ha : alookup a k with
          | none => rw [ha] at hbase; simp at hbase
          | some va =>
            rw [ha] at hbase
            have hpos := valueSize_pos (Value.vMap b)
            cases fuel with
            | zero => omega
            | succ f =>
              have hsize : valueSize vb ≤ f := by
                have := alookup_valueSize_lt b k vb hb
                omega
              have hmerge := ih f va vb v hsize hov hvm hbase
              simp only [mergeValF, value_at_path, alookup_append, alookup_merge_left,
                ha, hb, Option.map_some]
              exact hmerge
        | vNull => simp [value_at_path] at hbase
        | vStr s => simp [value_at_path] at hbase
        | vInt n => simp [value_at_path] at hbase
        | vBool b0 => simp [value_at_path] at hbase
        | vSeq xs => simp [value_at_path] at hbase
    | vNull => simp [value_at_path] at hov
    | vStr s => simp [value_at_path] at hov
    | vInt n => simp [value_at_path] at hov
    | vBool b0 => simp [value_at_path] at hov
    | vSeq xs => simp [value_at_path] at hov

/-- Claim C8: part 1 — for every loaded recipe and override mapping and any
key path present in both, with the override holding a scalar (non-mapping)
value there, the merged recipe's value at that path is the override's value.
Part 2 — the merge is deep, not replace-at-root: a root key present only in
the loaded recipe keeps its loaded value. -/
theorem C8_override_merge_precedence :
    (∀ (loaded_recipe recipe_overrides : Value) (path : List String) (v : Value),
      value_at_path recipe_overrides path = some v →
      v.isMap = false →
      (value_at_path loaded_recipe path).isSome = true →
      value_at_path (_load_base_recipe loaded_recipe recipe_overrides) path = some v) ∧
    (∀ (a b : List (String × Value)) (k : String) (va : Value),
      alookup a k = some va →
      alookup b k = none →
      value_at_path (_load_base_recipe (.vMap a) (.vMap b)) [k] = some va) := by
  constructor
  · intro loaded_recipe recipe_overrides path v hov hvm hbase
    exact mergeValF_value_at_path path (valueSize recipe_overrides)
      loaded_recipe recipe_overrides v (Nat.le_refl _) hov hvm hbase
  · intro a b k va ha hb
    unfold _load_base_recipe omegaconf_merge
    simp only [valueSize, mergeValF, value_at_path, alookup_append, alookup_merge_left,
      ha, hb, Option.map_some]
    rfl

/-- Witness for C8: overriding `{a: {x: 1, y: 2}}` with `{a: {x: 3}}` gives
`3` at path `a.x` while the sibling `a.y` keeps its loaded value. -/
theorem C8_override_merge_precedence_witness :
    value_at_path (_load_base_recipe
        (.vMap [("a", .vMap [("x", .vInt 1), ("y", .vInt 2)])])
        (.vMap [("a", .vMap [("x", .vInt 3)])])) ["a", "x"] = some (.vInt 3) :=
  C8_override_merge_precedence.1
    (.vMap [("a", .vMap [("x", .vInt 1), ("y", .vInt 2)])])
    (.vMap [("a", .vMap [("x", .vInt 3)])])
    ["a", "x"] (.vInt 3) rfl rfl rfl

end SmRecipes
